import Mathlib

/-!
Verification of the token/session lifecycle of the fusiuon-auth-fe client.

The definitions below are a shallow embedding of the TypeScript source:
`TokenManager`, the multi-tenant `AuthService` and the `FrontendAuth`
facade.  Browser state (the three `localStorage` slots, the timer table,
the network) is passed explicitly; `Date.now()/1000` becomes an explicit
`now : Int` parameter.  JavaScript semantics that the code relies on
(string truthiness, the forgiving base64 decoder behind `atob`,
`JSON.parse`, and the `<` comparison against `undefined`) are modelled
executably so that every theorem can be evaluated on concrete inputs.
-/

namespace FusionAuthFe

/-- JavaScript truthiness of a nullable string: `null`/`undefined` and the
empty string are falsy, every other string is truthy. -/
def jsTruthyStr (o : Option String) : Bool :=
  match o with
  | some s => !(s == "")
  | none => false

/-! ### `atob` : the WHATWG forgiving-base64 decoder

`isTokenExpired` first rewrites the base64url payload to standard base64
(dash to plus, underscore to slash) and then calls `atob` on it.
`atob` implements forgiving-base64: strip ASCII whitespace, strip up to two
trailing `=` when the length is a multiple of four, fail on a remaining
length of 1 mod 4 or on any character outside the base64 alphabet, and
decode leftover 2- or 3-character groups to 1 or 2 bytes. -/

/-- Value of one base64 alphabet character. -/
def b64Val (c : Char) : Option Nat :=
  if 'A' ≤ c ∧ c ≤ 'Z' then some (c.toNat - 'A'.toNat)
  else if 'a' ≤ c ∧ c ≤ 'z' then some (c.toNat - 'a'.toNat + 26)
  else if '0' ≤ c ∧ c ≤ '9' then some (c.toNat - '0'.toNat + 52)
  else if c = '+' then some 62
  else if c = '/' then some 63
  else none

/-- ASCII whitespace, removed by the forgiving decoder. -/
def isB64Ws (c : Char) : Bool :=
  c = ' ' || c = '\t' || c = '\n' || c = '\x0d' || c = '\x0c'

/-- Map every character to its sextet value, failing on a bad character. -/
def b64Sextets : List Char → Option (List Nat)
  | [] => some []
  | c :: cs => do
    let v ← b64Val c
    let vs ← b64Sextets cs
    pure (v :: vs)

/-- Pack sextets into bytes; a leftover group of 2 or 3 sextets yields 1 or
2 bytes (spare low bits are discarded, as the forgiving decoder does). -/
def sextetsToBytes : List Nat → List Nat
  | a :: b :: c :: d :: rest =>
      (a * 4 + b / 16) :: ((b % 16) * 16 + c / 4) :: ((c % 4) * 64 + d)
        :: sextetsToBytes rest
  | [a, b] => [a * 4 + b / 16]
  | [a, b, c] => [a * 4 + b / 16, (b % 16) * 16 + c / 4]
  | _ => []

/-- Strip one or two trailing `=` from a reversed character list. -/
def dropUpTo2EqRev : List Char → List Char
  | '=' :: '=' :: r => r
  | '=' :: r => r
  | r => r

/-- `atob`: forgiving-base64 decode to a string of code points 0–255,
`none` where the browser function throws `InvalidCharacterError`. -/
def atob (s : String) : Option String :=
  let cs := s.data.filter (fun c => !isB64Ws c)
  let cs := if cs.length % 4 = 0 then (dropUpTo2EqRev cs.reverse).reverse else cs
  if cs.length % 4 = 1 then none
  else do
    let vs ← b64Sextets cs
    pure ⟨(sextetsToBytes vs).map Char.ofNat⟩

/-- The source's global replacement of dash by plus and underscore by
slash on the payload, turning base64url into standard base64. -/
def b64urlToStd (s : String) : String :=
  ⟨s.data.map (fun c => if c = '-' then '+' else if c = '_' then '/' else c)⟩

/-- Splitting on a one-character separator, as JavaScript's
`String.prototype.split` does with no limit: the empty string splits to
`[""]`, separators at either end produce empty fields. -/
def jsSplitAux (sep : Char) : List Char → List Char → List String
  | [], acc => [⟨acc.reverse⟩]
  | c :: cs, acc =>
    if c = sep then ⟨acc.reverse⟩ :: jsSplitAux sep cs []
    else jsSplitAux sep cs (c :: acc)

/-- JavaScript `s.split(sep)` for a one-character separator. -/
def jsSplit (s : String) (sep : Char) : List String :=
  jsSplitAux sep s.data []

/-! ### `JSON.parse`

A JSON value; numbers are kept exact as rationals. -/

/-- An exact decimal number: the value `num / den`, where `den` is a
positive power of ten by construction.  Kept unnormalised so that every
operation reduces inside the kernel. -/
structure JsNumber where
  num : Int
  den : Nat
deriving Repr, DecidableEq

/-- Comparison of a decimal against an integer, by cross-multiplication
with the positive denominator: the source's `decoded.exp < now`. -/
def JsNumber.ltInt (q : JsNumber) (n : Int) : Bool :=
  decide (q.num < n * (q.den : Int))

inductive Json where
  | null
  | bool (b : Bool)
  | num (q : JsNumber)
  | str (s : String)
  | arr (elems : List Json)
  | obj (members : List (String × Json))
deriving Repr, Inhabited

/-- JSON whitespace (the only four characters `JSON.parse` skips). -/
def isJsonWs (c : Char) : Bool :=
  c = ' ' || c = '\t' || c = '\n' || c = '\x0d'

/-- Drop leading JSON whitespace. -/
def skipWs : List Char → List Char
  | c :: cs => if isJsonWs c then skipWs cs else c :: cs
  | [] => []

/-- Span of leading decimal digits. -/
def takeDigits : List Char → List Char × List Char
  | c :: cs =>
    if c.isDigit then
      let (ds, rest) := takeDigits cs
      (c :: ds, rest)
    else ([], c :: cs)
  | [] => ([], [])

/-- Digits to a natural number. -/
def digitsToNat (ds : List Char) : Nat :=
  ds.foldl (fun acc c => acc * 10 + (c.toNat - '0'.toNat)) 0

/-- Hex digit value. -/
def hexDigitVal (c : Char) : Option Nat :=
  if '0' ≤ c ∧ c ≤ '9' then some (c.toNat - '0'.toNat)
  else if 'a' ≤ c ∧ c ≤ 'f' then some (c.toNat - 'a'.toNat + 10)
  else if 'A' ≤ c ∧ c ≤ 'F' then some (c.toNat - 'A'.toNat + 10)
  else none

/-- Value of a one-character JSON escape, `none` on an invalid escape. -/
def escVal (e : Char) : Option Char :=
  match e with
  | '"' => some '"'
  | '\\' => some '\\'
  | '/' => some '/'
  | 'b' => some '\x08'
  | 'f' => some '\x0c'
  | 'n' => some '\n'
  | 'r' => some '\x0d'
  | 't' => some '\t'
  | _ => none

/-- Body of a JSON string literal, after the opening quote; returns the
decoded string and the input after the closing quote. -/
def parseStringBody : List Char → Option (String × List Char)
  | [] => none
  | '"' :: rest => some ("", rest)
  | '\\' :: 'u' :: a :: b :: c :: d :: rest => do
    let va ← hexDigitVal a
    let vb ← hexDigitVal b
    let vc ← hexDigitVal c
    let vd ← hexDigitVal d
    let (s, r) ← parseStringBody rest
    pure (⟨[Char.ofNat (((va * 16 + vb) * 16 + vc) * 16 + vd)]⟩ ++ s, r)
  | '\\' :: e :: rest => do
    let c ← escVal e
    let (s, r) ← parseStringBody rest
    pure (⟨[c]⟩ ++ s, r)
  | ['\\'] => none
  | c :: rest =>
    if c.toNat < 32 then none
    else do
      let (s, r) ← parseStringBody rest
      pure (⟨[c]⟩ ++ s, r)

/-- A JSON number per the strict `JSON.parse` grammar: an optional minus
sign, an integer part without leading zeros, an optional fraction and an
optional exponent, evaluated exactly as a decimal fraction. -/
def parseNumber (cs : List Char) : Option (JsNumber × List Char) :=
  let (neg, cs1) := match cs with
    | '-' :: r => (true, r)
    | _ => (false, cs)
  match takeDigits cs1 with
  | ([], _) => none
  | (intDs, cs2) =>
    if intDs.length > 1 ∧ intDs.headD '0' = '0' then none
    else
      let fracStep : Option (List Char × List Char) :=
        match cs2 with
        | '.' :: r =>
          match takeDigits r with
          | ([], _) => none
          | (ds, rest) => some (ds, rest)
        | _ => some ([], cs2)
      match fracStep with
      | none => none
      | some (fracDs, cs3) =>
        let expStep : Option (Bool × List Char × List Char) :=
          match cs3 with
          | e :: r =>
            if e = 'e' ∨ e = 'E' then
              let (eneg, r1) := match r with
                | '-' :: r2 => (true, r2)
                | '+' :: r2 => (false, r2)
                | _ => (false, r)
              match takeDigits r1 with
              | ([], _) => none
              | (ds, rest) => some (eneg, ds, rest)
            else some (false, [], cs3)
          | [] => some (false, [], cs3)
        match expStep with
        | none => none
        | some (eneg, expDs, cs4) =>
          let k := fracDs.length
          let mantNum : Nat := digitsToNat intDs * 10 ^ k + digitsToNat fracDs
          let e := digitsToNat expDs
          let q : JsNumber :=
            if eneg then ⟨mantNum, 10 ^ k * 10 ^ e⟩
            else ⟨mantNum * 10 ^ e, 10 ^ k⟩
          some ((if neg then ⟨-q.num, q.den⟩ else q), cs4)

mutual

/-- Parse one JSON value (fuel-indexed recursive descent). -/
def parseValue : Nat → List Char → Option (Json × List Char)
  | 0, _ => none
  | Nat.succ fuel, cs =>
    match skipWs cs with
    | [] => none
    | c :: rest =>
      if c = 'n' then
        match rest with
        | 'u' :: 'l' :: 'l' :: r => some (.null, r)
        | _ => none
      else if c = 't' then
        match rest with
        | 'r' :: 'u' :: 'e' :: r => some (.bool true, r)
        | _ => none
      else if c = 'f' then
        match rest with
        | 'a' :: 'l' :: 's' :: 'e' :: r => some (.bool false, r)
        | _ => none
      else if c = '"' then do
        let (s, r) ← parseStringBody rest
        pure (.str s, r)
      else if c = '[' then
        match skipWs rest with
        | ']' :: r => some (.arr [], r)
        | r1 => do
          let (xs, r) ← parseElems fuel r1
          pure (.arr xs, r)
      else if c = '\x7b' then
        match skipWs rest with
        | '\x7d' :: r => some (.obj [], r)
        | r1 => do
          let (ms, r) ← parseMembers fuel r1
          pure (.obj ms, r)
      else if c = '-' ∨ c.isDigit then
        do
          let (q, r) ← parseNumber (c :: rest)
          pure (.num q, r)
      else none

/-- Parse the elements of a non-empty JSON array, up to and including the
closing bracket. -/
def parseElems : Nat → List Char → Option (List Json × List Char)
  | 0, _ => none
  | Nat.succ fuel, cs => do
    let (v, r) ← parseValue fuel cs
    match skipWs r with
    | ',' :: r1 => do
      let (vs, r2) ← parseElems fuel r1
      pure (v :: vs, r2)
    | ']' :: r1 => pure ([v], r1)
    | _ => none

/-- Parse the members of a non-empty JSON object, up to and including the
closing brace. -/
def parseMembers : Nat → List Char → Option (List (String × Json) × List Char)
  | 0, _ => none
  | Nat.succ fuel, cs =>
    match skipWs cs with
    | '"' :: r => do
      let (k, r1) ← parseStringBody r
      match skipWs r1 with
      | ':' :: r2 => do
        let (v, r3) ← parseValue fuel r2
        match skipWs r3 with
        | ',' :: r4 => do
          let (ms, r5) ← parseMembers fuel r4
          pure ((k, v) :: ms, r5)
        | '\x7d' :: r4 => pure ([(k, v)], r4)
        | _ => none
      | _ => none
    | _ => none

end

/-- `JSON.parse`: one value, whitespace allowed around it, the whole input
consumed; `none` where `JSON.parse` throws a `SyntaxError`.  The fuel
`2 * length + 2` dominates any chain of nested calls, each of which
consumes at least one input character. -/
def jsonParse (s : String) : Option Json :=
  match parseValue (2 * s.length + 2) s.data with
  | some (j, rest) => if skipWs rest = [] then some j else none
  | none => none

/-- Property read `obj.k` on a parsed JSON value: `none` plays the role of
JavaScript's `undefined` (missing key, or not an object).  With duplicate
keys `JSON.parse` keeps the last one. -/
def Json.getField : Json → String → Option Json
  | .obj kvs, k => (kvs.reverse.find? (fun p => p.1 == k)).map (·.2)
  | _, _ => none

/-- JavaScript `ToNumber` on a JSON value, `none` standing for `NaN`.
Strings are trimmed and read as an optionally signed decimal literal (the
empty string converts to 0); arrays and objects, which coerce through
their string form, are approximated as `NaN` — no JWT payload field shape
exercised here produces a numeric string that way. -/
def jsToNumber : Json → Option JsNumber
  | .null => some ⟨0, 1⟩
  | .bool b => some (if b then ⟨1, 1⟩ else ⟨0, 1⟩)
  | .num q => some q
  | .str s =>
    let cs := (s.data.filter (fun c => !isB64Ws c))
    match cs with
    | [] => some ⟨0, 1⟩
    | _ =>
      let (neg, cs1) := match cs with
        | '-' :: r => (true, r)
        | '+' :: r => (false, r)
        | _ => (false, cs)
      match takeDigits cs1 with
      | ([], _) => none
      | (intDs, cs2) =>
        let fracStep : Option (List Char × List Char) :=
          match cs2 with
          | '.' :: r =>
            let (ds, rest) := takeDigits r
            some (ds, rest)
          | _ => some ([], cs2)
        match fracStep with
        | none => none
        | some (fracDs, cs3) =>
          if cs3 = [] then
            let k := fracDs.length
            let n : Nat := digitsToNat intDs * 10 ^ k + digitsToNat fracDs
            some ⟨if neg then -(n : Int) else (n : Int), 10 ^ k⟩
          else none
  | .arr _ => none
  | .obj _ => none

/-- The source's `decoded.exp < now` where `exp` may be `undefined`: an
absent field or a `NaN` coercion compares false; otherwise the numeric
comparison is performed. -/
def jsUndefLtNum (v : Option Json) (now : Int) : Bool :=
  match v with
  | none => false
  | some j =>
    match jsToNumber j with
    | some q => q.ltInt now
    | none => false

/-! ### The credential store

The three `localStorage` slots `fa_access_token`, `fa_refresh_token` and
`fa_id_token`; `none` models an absent key (`getItem` returning `null`). -/

@[ext]
structure TokenStore where
  accessToken : Option String
  refreshToken : Option String
  idToken : Option String
deriving Repr, DecidableEq

namespace TokenManager

/-- `TokenManager.getTokens()`: read the three slots. -/
def getTokens (s : TokenStore) : TokenStore := s

/-- The response body of the token-exchange and refresh endpoints. -/
structure TokenTriple where
  access_token : String
  refresh_token : String
  id_token : String
deriving Repr, DecidableEq

/-- `TokenManager.setTokens(tokens)`: overwrite all three slots. -/
def setTokens (t : TokenTriple) : TokenStore :=
  { accessToken := some t.access_token
    refreshToken := some t.refresh_token
    idToken := some t.id_token }

/-- `TokenManager.clearTokens()`: remove all three slots. -/
def clearTokens : TokenStore :=
  { accessToken := none, refreshToken := none, idToken := none }

/-- The source's `token.split('.')[1]`: the second dot-separated segment,
`none` for JavaScript's `undefined` when there is no such segment. -/
def secondSegment (token : String) : Option String :=
  (jsSplit token '.').get? 1

/-- `TokenManager.isTokenExpired(token)` at current epoch-seconds `now`
(the source computes `now` as the floor of `Date.now()` over 1000):
take the second dot-separated segment; when it is truthy, base64url-decode
it, `JSON.parse` it and return `decoded.exp < now`; any throw is caught
and reported as expired, and a falsy segment falls through to the final
`return true`.  A payload that parses to the JSON value `null` also lands
in the catch: property access on `null` throws a TypeError.  On every
other parsed value `.exp` is at worst `undefined`, which compares
false. -/
def isTokenExpired (token : String) (now : Int) : Bool :=
  match secondSegment token with
  | none => true
  | some payload =>
    if payload = "" then true
    else
      match atob (b64urlToStd payload) with
      | none => true
      | some decoded =>
        match jsonParse decoded with
        | none => true
        | some .null => true
        | some j => jsUndefLtNum (j.getField "exp") now

/-- Guard of the removal branches in `cleanupExpiredTokens`:
`tokens.<slot> && this.isTokenExpired(tokens.<slot>)`. -/
def slotExpired (o : Option String) (now : Int) : Bool :=
  jsTruthyStr o && isTokenExpired (o.getD "") now

/-- `TokenManager.cleanupExpiredTokens()`: snapshot the slots; remove the
access slot if truthy and expired, likewise the id slot; if either was
removed and the snapshot's refresh slot is truthy, remove the refresh
slot too; return whether anything expired. -/
def cleanupExpiredTokens (s : TokenStore) (now : Int) : TokenStore × Bool :=
  let tokens := getTokens s
  let removeAccess := slotExpired tokens.accessToken now
  let s1 := if removeAccess then { s with accessToken := none } else s
  let removeId := slotExpired tokens.idToken now
  let s2 := if removeId then { s1 with idToken := none } else s1
  let hasExpired := removeAccess || removeId
  let s3 :=
    if hasExpired && jsTruthyStr tokens.refreshToken then
      { s2 with refreshToken := none }
    else s2
  (s3, hasExpired)

/-- `TokenManager.hasValidTokens()`: clean first; return false when the
access slot is falsy, otherwise the negation of its expiry check. -/
def hasValidTokens (s : TokenStore) (now : Int) : TokenStore × Bool :=
  let s1 := (cleanupExpiredTokens s now).1
  let tokens := getTokens s1
  if !jsTruthyStr tokens.accessToken then (s1, false)
  else (s1, !isTokenExpired (tokens.accessToken.getD "") now)

/-- `TokenManager.getAccessToken()`: clean first, then read the access
slot. -/
def getAccessToken (s : TokenStore) (now : Int) : TokenStore × Option String :=
  let s1 := (cleanupExpiredTokens s now).1
  (s1, (getTokens s1).accessToken)

/-! The browser timer table: `setInterval` appends a repeating timer with
its period in milliseconds and returns its id, which
`startCleanupInterval` discards. -/

structure TimerWorld where
  cleanupTimers : List Nat
deriving Repr, DecidableEq

/-- `setInterval(cb, ms)`: register one more repeating timer, returning
the pair (new timer table, timer id). -/
def jsSetInterval (w : TimerWorld) (ms : Nat) : TimerWorld × Nat :=
  ({ cleanupTimers := w.cleanupTimers ++ [ms] }, w.cleanupTimers.length)

/-- `TokenManager.startCleanupInterval()`: `setInterval` of
`cleanupExpiredTokens` every five minutes; the returned id is discarded,
so no handle for cancellation is retained. -/
def startCleanupInterval (w : TimerWorld) : TimerWorld :=
  (jsSetInterval w (5 * 60 * 1000)).1

end TokenManager

namespace AuthService

open TokenManager

/-- Outcome of the `fetch` to the refresh endpoint, as observed by
`refreshToken`: a 2xx response carrying a new token triple, a non-2xx
response, or a thrown network error. -/
inductive RefreshOutcome where
  | ok (tokens : TokenTriple)
  | httpError
  | networkError
deriving Repr, DecidableEq

/-- `AuthService.refreshToken()` of the multi-tenant service: read the
slots; when the refresh slot is falsy return false at once (no `fetch`);
otherwise `fetch` the refresh endpoint and, on a 2xx response, store the
returned triple and return true; on anything else return false leaving
the store untouched.  The result is (new store, returned boolean, whether
the network was called). -/
def refreshToken (s : TokenStore) (backend : RefreshOutcome) :
    TokenStore × Bool × Bool :=
  let tokens := getTokens s
  if !jsTruthyStr tokens.refreshToken then (s, false, false)
  else
    match backend with
    | .ok t => (setTokens t, true, true)
    | .httpError => (s, false, true)
    | .networkError => (s, false, true)

/-- Payload of the multi-tenant login-initiation endpoint. -/
structure InitiatePayload where
  success : Bool
  auth_url : Option String
  company : Option String
  message : Option String
deriving Repr, DecidableEq

/-- The HTTP response seen by `initiateLogin`: a 2xx response with a
payload, a non-2xx response with an error payload, or a thrown transport
error. -/
inductive InitiateResponse where
  | success (data : InitiatePayload)
  | httpError (status : Nat) (data : InitiatePayload)
  | transportError (msg : String)
deriving Repr, DecidableEq

/-- JavaScript `m || d` for an optional string `m`: the default wins when
`m` is `undefined` or the empty string. -/
def jsOrDefault (m : Option String) (d : String) : String :=
  match m with
  | some s => if s = "" then d else s
  | none => d

/-- `AuthService.initiateLogin(email)`: on a 2xx response, resolve with
the payload when `data.success` is truthy, else throw
`data.message || 'Login failed'`; on a non-2xx response throw
`errorData.message || 'Login failed: <status>'`; a transport error is
logged and rethrown unchanged.  `Except.error` is the rejected promise
(the `Failed` outcome), `Except.ok` the resolved payload handed to the
caller for redirection. -/
def initiateLogin : InitiateResponse → Except String InitiatePayload
  | .success d =>
    if d.success then .ok d
    else .error (jsOrDefault d.message "Login failed")
  | .httpError st d => .error (jsOrDefault d.message ("Login failed: " ++ toString st))
  | .transportError m => .error m

/-- `AuthService.isAuthenticated()` of the cookie-based service: truthy
access cookie and truthy refresh cookie (the double-negated conjunction
of the two reads). -/
def isAuthenticated (accessCookie refreshCookie : Option String) : Bool :=
  jsTruthyStr accessCookie && jsTruthyStr refreshCookie

end AuthService

namespace FrontendAuth

/-- `FrontendAuth.getAccessToken()`: delegates to
`TokenManager.getAccessToken()`. -/
def getAccessToken (s : TokenStore) (now : Int) : TokenStore × Option String :=
  TokenManager.getAccessToken s now

end FrontendAuth

/-! ### Supporting lemmas -/

open TokenManager AuthService

/-- The empty string never passes the expiry decoder: it has no second
dot-separated segment, so the check fails closed. -/
theorem isTokenExpired_empty (now : Int) : isTokenExpired "" now = true := rfl

/-- An absent slot never triggers a removal. -/
theorem slotExpired_none (now : Int) : slotExpired none now = false := rfl

/-- Closed form of one `cleanupExpiredTokens` pass: the access and id
slots are cleared exactly when truthy and expired, the refresh slot is
cleared exactly when one of them was and it is itself truthy, and the
returned flag records whether a removal happened. -/
theorem cleanupExpiredTokens_eq (s : TokenStore) (now : Int) :
    cleanupExpiredTokens s now =
      (⟨if slotExpired s.accessToken now then none else s.accessToken,
        if (slotExpired s.accessToken now || slotExpired s.idToken now)
            && jsTruthyStr s.refreshToken then none else s.refreshToken,
        if slotExpired s.idToken now then none else s.idToken⟩,
       slotExpired s.accessToken now || slotExpired s.idToken now) := by
  simp only [cleanupExpiredTokens, getTokens]
  rcases Bool.eq_false_or_eq_true (slotExpired s.accessToken now) with hA | hA <;>
    rcases Bool.eq_false_or_eq_true (slotExpired s.idToken now) with hI | hI <;>
    rcases Bool.eq_false_or_eq_true (jsTruthyStr s.refreshToken) with hR | hR <;>
    simp [hA, hI, hR]

/-- After a cleanup pass the access slot, when truthy, is unexpired. -/
theorem cleanup_access_unexpired (s : TokenStore) (now : Int) (a : String)
    (h : (cleanupExpiredTokens s now).1.accessToken = some a) (h0 : a ≠ "") :
    isTokenExpired a now = false := by
  rw [cleanupExpiredTokens_eq] at h
  simp only at h
  by_cases hE : slotExpired s.accessToken now = true
  · simp [hE] at h
  · simp [hE] at h
    rw [h] at hE
    simpa [slotExpired, jsTruthyStr, h0] using hE

/-- Closed form of `hasValidTokens`: the state is the cleaned state, and
the returned boolean depends only on the pre-state's access slot — false
when it is absent, the negated expiry check otherwise. -/
theorem hasValidTokens_eq (s : TokenStore) (now : Int) :
    hasValidTokens s now =
      ((cleanupExpiredTokens s now).1,
        match s.accessToken with
        | some a => !isTokenExpired a now
        | none => false) := by
  cases h : s.accessToken with
  | none =>
    simp [hasValidTokens, cleanupExpiredTokens_eq, h, slotExpired, jsTruthyStr, getTokens]
  | some a =>
    by_cases ha : a = ""
    · subst ha
      simp [hasValidTokens, cleanupExpiredTokens_eq, h, slotExpired, jsTruthyStr,
        getTokens, isTokenExpired_empty]
    · cases hE : isTokenExpired a now with
      | true =>
        simp [hasValidTokens, cleanupExpiredTokens_eq, h, slotExpired, jsTruthyStr,
          getTokens, ha, hE]
      | false =>
        simp [hasValidTokens, cleanupExpiredTokens_eq, h, slotExpired, jsTruthyStr,
          getTokens, ha, hE]

/-! ### The claims -/

/-- C1, counterexample: the claim asserts that every token string that is
not three dot-separated segments is treated as expired, but
`isTokenExpired` never checks the segment count — it only reads the
second segment.  The two-segment string below carries a decodable payload
with a future expiry, and the check returns false. -/
theorem claim_C1_counterexample :
    (jsSplit "x.eyJleHAiOjk5OX0" '.').length ≠ 3 ∧
      isTokenExpired "x.eyJleHAiOjk5OX0" 0 = false := by
  exact ⟨by decide, by decide⟩

/-- C1, amended: for every token string whose second dot-separated
segment is missing or empty, or is not valid base64url, or whose decoded
payload is not valid JSON, `isTokenExpired` returns true (fail-closed).
The source never checks that there are exactly three segments. -/
theorem claim_C1 (t : String) (now : Int)
    (h : secondSegment t = none ∨ secondSegment t = some "" ∨
      (∃ p, secondSegment t = some p ∧ atob (b64urlToStd p) = none) ∨
      (∃ p d, secondSegment t = some p ∧ atob (b64urlToStd p) = some d ∧
        jsonParse d = none)) :
    isTokenExpired t now = true := by
  rcases h with h | h | ⟨p, hp, hb⟩ | ⟨p, d, hp, hb, hj⟩
  · simp [isTokenExpired, h]
  · simp [isTokenExpired, h]
  · by_cases h0 : p = ""
    · simp [isTokenExpired, hp, h0]
    · simp [isTokenExpired, hp, h0, hb]
  · by_cases h0 : p = ""
    · simp [isTokenExpired, hp, h0]
    · simp [isTokenExpired, hp, h0, hb, hj]

/-- C1, witness: a token without a second segment, one whose second
segment is not base64, and one whose second segment decodes to non-JSON
are all reported expired. -/
theorem claim_C1_witness :
    isTokenExpired "abc" 0 = true ∧ isTokenExpired "a.!!!.b" 0 = true ∧
      isTokenExpired "a.YWJj.b" 0 = true :=
  ⟨claim_C1 "abc" 0 (Or.inl rfl),
   claim_C1 "a.!!!.b" 0 (Or.inr (Or.inr (Or.inl ⟨"!!!", rfl, rfl⟩))),
   claim_C1 "a.YWJj.b" 0 (Or.inr (Or.inr (Or.inr ⟨"YWJj", "abc", rfl, rfl, rfl⟩)))⟩

/-- C2: `hasValidTokens` first runs the expired-token cleanup (its
resulting state is exactly the cleaned state) and its boolean is
determined by the pre-state's access slot alone: true exactly when an
access credential is present and not expired, hence false whenever the
access slot is absent, regardless of the refresh and identity slots. -/
theorem claim_C2 (s : TokenStore) (now : Int) :
    (hasValidTokens s now).1 = (cleanupExpiredTokens s now).1 ∧
      (hasValidTokens s now).2 =
        (match s.accessToken with
          | some a => !isTokenExpired a now
          | none => false) := by
  rw [hasValidTokens_eq]
  exact ⟨rfl, rfl⟩

/-- C3: whenever the access or the identity credential is removed as
expired by `cleanupExpiredTokens`, the refresh credential is removed as
well — with no condition on the refresh credential's own expiry. -/
theorem claim_C3 (s : TokenStore) (now : Int) (r : String)
    (hr : s.refreshToken = some r) (hr0 : r ≠ "")
    (h : (∃ a, s.accessToken = some a ∧ a ≠ "" ∧ isTokenExpired a now = true) ∨
      (∃ i, s.idToken = some i ∧ i ≠ "" ∧ isTokenExpired i now = true)) :
    (cleanupExpiredTokens s now).1.refreshToken = none := by
  rw [cleanupExpiredTokens_eq]
  simp only
  rcases h with ⟨a, ha, ha0, haE⟩ | ⟨i, hi, hi0, hiE⟩
  · simp [slotExpired, ha, hr, jsTruthyStr, ha0, hr0, haE]
  · simp [slotExpired, hi, hr, jsTruthyStr, hi0, hr0, hiE]

/-- C3, witness: with an access token expired at `now = 2` and a refresh
token that is itself unexpired at that instant, the cleanup removes the
refresh slot. -/
theorem claim_C3_witness :
    isTokenExpired "a.eyJleHAiOjF9.b" 2 = true ∧
      isTokenExpired "a.eyJleHAiOjk5OX0.b" 2 = false ∧
      (cleanupExpiredTokens
        ⟨some "a.eyJleHAiOjF9.b", some "a.eyJleHAiOjk5OX0.b", none⟩ 2).1.refreshToken
        = none :=
  ⟨by decide, by decide,
   claim_C3 ⟨some "a.eyJleHAiOjF9.b", some "a.eyJleHAiOjk5OX0.b", none⟩ 2
     "a.eyJleHAiOjk5OX0.b" rfl (by decide)
     (Or.inl ⟨"a.eyJleHAiOjF9.b", rfl, by decide, by decide⟩)⟩

/-- C4: `cleanupExpiredTokens` is idempotent — a second consecutive pass
over the state produced by a first pass, at the same instant, removes
nothing and returns false. -/
theorem claim_C4 (s : TokenStore) (now : Int) :
    cleanupExpiredTokens (cleanupExpiredTokens s now).1 now =
      ((cleanupExpiredTokens s now).1, false) := by
  have hA : slotExpired (cleanupExpiredTokens s now).1.accessToken now = false := by
    rw [cleanupExpiredTokens_eq]
    rcases Bool.eq_false_or_eq_true (slotExpired s.accessToken now) with h | h <;>
      simp [h, slotExpired_none]
  have hI : slotExpired (cleanupExpiredTokens s now).1.idToken now = false := by
    rw [cleanupExpiredTokens_eq]
    rcases Bool.eq_false_or_eq_true (slotExpired s.idToken now) with h | h <;>
      simp [h, slotExpired_none]
  rw [cleanupExpiredTokens_eq (cleanupExpiredTokens s now).1 now, hA, hI]
  simp

/-- C5: the refresh contract of the multi-tenant `AuthService`.  With no
refresh credential stored the call returns false at once and the network
is not touched, whatever the backend would have answered; with a refresh
credential stored, a successful backend call overwrites the whole
credential set (the access slot afterwards holds the new value) and the
call returns true; a failed backend call (non-2xx or thrown) leaves every
slot unchanged and returns false. -/
theorem claim_C5 (s : TokenStore) (b : RefreshOutcome) (t : TokenTriple) :
    (s.refreshToken = none → AuthService.refreshToken s b = (s, false, false)) ∧
      ((∃ r, s.refreshToken = some r ∧ r ≠ "") →
        AuthService.refreshToken s (.ok t) = (setTokens t, true, true)) ∧
      ((∃ r, s.refreshToken = some r ∧ r ≠ "") →
        b = .httpError ∨ b = .networkError →
        AuthService.refreshToken s b = (s, false, true)) := by
  refine ⟨fun h => ?_, fun ⟨r, hr, hr0⟩ => ?_, fun ⟨r, hr, hr0⟩ hb => ?_⟩
  · simp [AuthService.refreshToken, getTokens, h, jsTruthyStr]
  · simp [AuthService.refreshToken, getTokens, hr, jsTruthyStr, hr0]
  · rcases hb with hb | hb <;>
      simp [AuthService.refreshToken, getTokens, hr, jsTruthyStr, hr0, hb]

/-- C5, witness: the three cases at concrete stores — no refresh
credential (false, no network, state kept), stored refresh credential
with a successful backend (full overwrite, access slot holds the new
value), stored refresh credential with a failing backend (state kept,
false, network was called). -/
theorem claim_C5_witness :
    AuthService.refreshToken ⟨some "old", none, none⟩ .httpError
        = (⟨some "old", none, none⟩, false, false) ∧
      AuthService.refreshToken ⟨some "old", some "r", some "oldId"⟩
          (.ok ⟨"newA", "newR", "newI"⟩)
        = (⟨some "newA", some "newR", some "newI"⟩, true, true) ∧
      AuthService.refreshToken ⟨some "old", some "r", some "oldId"⟩ .networkError
        = (⟨some "old", some "r", some "oldId"⟩, false, true) :=
  ⟨(claim_C5 ⟨some "old", none, none⟩ .httpError ⟨"newA", "newR", "newI"⟩).1 rfl,
   (claim_C5 ⟨some "old", some "r", some "oldId"⟩ .httpError
     ⟨"newA", "newR", "newI"⟩).2.1 ⟨"r", rfl, by decide⟩,
   (claim_C5 ⟨some "old", some "r", some "oldId"⟩ .networkError
     ⟨"newA", "newR", "newI"⟩).2.2 ⟨"r", rfl, by decide⟩ (Or.inr rfl)⟩

/-- C6, counterexample: the claim promises that the rejection message is
exactly the backend's message for every 200 response with
`success false`; but for the empty backend message the source's
`data.message || 'Login failed'` substitutes the default, so the
rejection message is not the backend's. -/
theorem claim_C6_counterexample :
    AuthService.initiateLogin (.success ⟨false, none, none, some ""⟩)
        = .error "Login failed" ∧ "Login failed" ≠ "" :=
  ⟨rfl, by decide⟩

/-- C6, amended: for every 200 response whose payload has `success` false
and a non-empty message `m`, `initiateLogin` rejects (the `Failed`
outcome — no authorization URL is handed back for redirection) with
message exactly `m`. -/
theorem claim_C6 (m : String) (hm : m ≠ "") (u c : Option String) :
    AuthService.initiateLogin (.success ⟨false, u, c, some m⟩) = .error m := by
  simp [AuthService.initiateLogin, jsOrDefault, hm]

/-- C6, witness: the backend message "unknown domain" is surfaced
verbatim as the rejection message. -/
theorem claim_C6_witness :
    AuthService.initiateLogin (.success ⟨false, none, none, some "unknown domain"⟩)
      = .error "unknown domain" :=
  claim_C6 "unknown domain" (by decide) none none

/-- C7, counterexample: the claim says the session-validity or
is-authenticated check reports a credential set with an unexpired access
credential and no refresh credential as authenticated; but the
cookie-based `AuthService.isAuthenticated` demands both cookies, so it
reports false on exactly that shape. -/
theorem claim_C7_counterexample :
    isTokenExpired "a.eyJleHAiOjJ9.b" 1 = false ∧
      AuthService.isAuthenticated (some "a.eyJleHAiOjJ9.b") none = false :=
  ⟨by decide, by decide⟩

/-- C7, amended: an unexpired access credential with no refresh
credential is no error for the lifecycle manager — `hasValidTokens`
reports the session valid (only auto-renewal is lost) — while the
cookie-based `AuthService.isAuthenticated`, which requires both the
access and the refresh read to be truthy, reports it unauthenticated. -/
theorem claim_C7 (s : TokenStore) (now : Int) (a : String)
    (ha : s.accessToken = some a) (hexp : isTokenExpired a now = false)
    (hr : s.refreshToken = none) :
    (hasValidTokens s now).2 = true ∧
      AuthService.isAuthenticated s.accessToken s.refreshToken = false := by
  constructor
  · rw [hasValidTokens_eq]
    simp [ha, hexp]
  · simp [AuthService.isAuthenticated, hr, jsTruthyStr]

/-- C7, witness: a store holding only an access token unexpired at
`now = 1` passes `hasValidTokens` and fails `isAuthenticated`. -/
theorem claim_C7_witness :
    isTokenExpired "a.eyJleHAiOjJ9.b" 1 = false ∧
      (hasValidTokens ⟨some "a.eyJleHAiOjJ9.b", none, none⟩ 1).2 = true ∧
      AuthService.isAuthenticated (some "a.eyJleHAiOjJ9.b") none = false := by
  have h := claim_C7 ⟨some "a.eyJleHAiOjJ9.b", none, none⟩ 1 "a.eyJleHAiOjJ9.b"
    rfl (by decide) rfl
  exact ⟨by decide, h.1, h.2⟩

/-- C8, counterexample: the claim says a second call while a sweep timer
is active does not create a second timer; but `startCleanupInterval`
registers a fresh `setInterval` on every call and discards the handle, so
two calls leave two repeating cleanup timers. -/
theorem claim_C8_counterexample :
    (startCleanupInterval (startCleanupInterval ⟨[]⟩)).cleanupTimers.length = 2 ∧
      ¬ (startCleanupInterval (startCleanupInterval ⟨[]⟩)).cleanupTimers.length ≤ 1 :=
  ⟨rfl, by decide⟩

/-- C8, amended: `startCleanupInterval` is not idempotent and retains no
cancellation handle: every call appends one more repeating five-minute
cleanup timer to the timer table (so n calls leave n timers), and the
interval id returned by `setInterval` is discarded. -/
theorem claim_C8 (w : TimerWorld) :
    (startCleanupInterval w).cleanupTimers = w.cleanupTimers ++ [5 * 60 * 1000] ∧
      (startCleanupInterval w).cleanupTimers.length = w.cleanupTimers.length + 1 := by
  constructor
  · rfl
  · simp [startCleanupInterval, jsSetInterval]

/-- C9, counterexample: the token `a.bnVsbA.b` has three dot-separated
segments and its middle segment base64url-decodes to `null` — valid JSON
containing no `exp` field — yet `isTokenExpired` reports it expired: the
source's `decoded.exp` throws a TypeError on `null` and the catch returns
true, against the claim's "returns false". -/
theorem claim_C9_counterexample :
    jsSplit "a.bnVsbA.b" '.' = ["a", "bnVsbA", "b"] ∧
      atob (b64urlToStd "bnVsbA") = some "null" ∧
      jsonParse "null" = some Json.null ∧
      Json.null.getField "exp" = none ∧
      isTokenExpired "a.bnVsbA.b" 0 = true :=
  ⟨rfl, rfl, rfl, rfl, rfl⟩

/-- C9, amended: a token with three dot-separated segments whose middle
segment base64url-decodes to valid JSON other than `null` and with no
`exp` member is never reported expired: the source compares
`undefined < now`, which is false, so the token passes the expiry check
at every instant.  The one decodable exception is the payload `null`,
where the property access itself throws and the catch reports expired. -/
theorem claim_C9 (t hdr p sig : String) (now : Int) (d : String) (j : Json)
    (hsplit : jsSplit t '.' = [hdr, p, sig]) (hp : p ≠ "")
    (hatob : atob (b64urlToStd p) = some d) (hjson : jsonParse d = some j)
    (hnull : j ≠ Json.null) (hexp : j.getField "exp" = none) :
    isTokenExpired t now = false := by
  have hseg : secondSegment t = some p := by simp [secondSegment, hsplit]
  cases j with
  | null => exact absurd rfl hnull
  | bool b => simp [isTokenExpired, hseg, hp, hatob, hjson, jsUndefLtNum, hexp]
  | num q => simp [isTokenExpired, hseg, hp, hatob, hjson, jsUndefLtNum, hexp]
  | str v => simp [isTokenExpired, hseg, hp, hatob, hjson, jsUndefLtNum, hexp]
  | arr xs => simp [isTokenExpired, hseg, hp, hatob, hjson, jsUndefLtNum, hexp]
  | obj ms => simp [isTokenExpired, hseg, hp, hatob, hjson, jsUndefLtNum, hexp]

/-- C9, witness: the token `a.e30.b`, whose middle segment decodes to the
empty JSON object (not `null`), is unexpired at `now = 7`. -/
theorem claim_C9_witness : isTokenExpired "a.e30.b" 7 = false :=
  claim_C9 "a.e30.b" "a" "e30" "b" 7 "\x7b\x7d" (Json.obj []) rfl (by decide)
    rfl rfl (fun h => Json.noConfusion h) rfl

/-- C10, counterexample: the claim says every non-null token handed out
by `getAccessToken` passes the expiry check; but an empty-string slot
value is non-null, survives the cleanup (whose guard requires a truthy
slot), is returned as-is, and is reported expired by `isTokenExpired`. -/
theorem claim_C10_counterexample :
    (TokenManager.getAccessToken ⟨some "", none, none⟩ 0).2 = some "" ∧
      isTokenExpired "" 0 = true :=
  ⟨rfl, by decide⟩

/-- C10, amended: `TokenManager.getAccessToken` (and the delegating
`FrontendAuth.getAccessToken`) runs the cleanup first, so every
*non-empty* token it returns is unexpired at that same instant; only the
degenerate empty-string value escapes the cleanup's truthiness guard. -/
theorem claim_C10 (s : TokenStore) (now : Int) (tok : String)
    (h : (TokenManager.getAccessToken s now).2 = some tok ∨
      (FrontendAuth.getAccessToken s now).2 = some tok)
    (h0 : tok ≠ "") :
    isTokenExpired tok now = false := by
  have hacc : (cleanupExpiredTokens s now).1.accessToken = some tok := by
    rcases h with h | h <;> exact h
  exact cleanup_access_unexpired s now tok hacc h0

/-- C10, witness: a store whose access token is unexpired at `now = 1`
hands that token out, and the token indeed passes the expiry check. -/
theorem claim_C10_witness :
    (TokenManager.getAccessToken ⟨some "a.eyJleHAiOjJ9.b", none, some "x"⟩ 1).2
        = some "a.eyJleHAiOjJ9.b" ∧
      isTokenExpired "a.eyJleHAiOjJ9.b" 1 = false :=
  ⟨rfl,
   claim_C10 ⟨some "a.eyJleHAiOjJ9.b", none, some "x"⟩ 1 "a.eyJleHAiOjJ9.b"
     (Or.inl rfl) (by decide)⟩

end FusionAuthFe
